import Mathlib

/-!
Shallow embedding of `src/lib/transports/WebSocketTransport.js` from the
protoo-client-patched repository.

The transport is a single-threaded, event-driven object.  We model it as a
pure state machine: the mutable instance fields of the `WebSocketTransport`
class (plus the closure variables `wasConnected` and the retry operation's
remaining budget, which live in the closure of `_setWebSocket`) become a
`Transport` record, and every method / socket callback becomes a pure
function `Transport → ... → Transport × List Action`, where the `Action`
trace records, in order, the observable effects performed during that call:
public event emissions (`open`, `close`, `disconnected`, `message`), logger
calls, retry-operation scheduling/stopping, socket construction, socket
teardown and socket sends.

External collaborators are modelled as parameters:
  - the message codec (`Message.parse`) as an arbitrary `decode : String → Option String`;
  - `JSON.stringify` as an arbitrary `serialize : String → String`;
  - whether the underlying `ws.send(...)` / teardown throws as a `Bool` input;
  - the number of registered `message` listeners as a `Nat` input.

The `retry` npm library semantics used by the source: `retry.operation(opts)`
builds an operation with `opts.retries` retries remaining; `operation.attempt(fn)`
invokes `fn` synchronously for the first attempt; `operation.retry(true)`
consumes one unit of budget and schedules another attempt (returning `true`)
when budget remains, and returns `false` when the budget is exhausted;
`operation.stop()` cancels any scheduled attempt.  We model the budget as a
`retriesLeft : Nat` field and scheduling as a `scheduleRetry` action; a
scheduled attempt firing later is the separate step `attemptStep`.
-/

namespace Protoo

/-- Backoff policy options recognised by the `retry` npm library, as used by
the source (`retries`, `factor`, `minTimeout`, `maxTimeout`).  Only `retries`
affects control flow; the other three only affect timing, which the embedding
does not observe. -/
structure RetryOptions where
  retries : Nat
  factor : Nat
  minTimeout : Nat
  maxTimeout : Nat
deriving Repr, DecidableEq

/-- `DEFAULT_RETRY_OPTIONS` from the source: 10 retries, factor 2,
min timeout 1000 ms, max timeout 8000 ms. -/
def DEFAULT_RETRY_OPTIONS : RetryOptions :=
  { retries := 10, factor := 2, minTimeout := 1000, maxTimeout := 8000 }

/-- The options structure accepted by the constructor: `origin`, `headers`,
`requestOptions`, `clientConfig` are opaque values handed to the W3C
WebSocket constructor (modelled as optional strings), and `retry` optionally
overrides the default backoff policy. -/
structure Options where
  origin : Option String := none
  headers : Option String := none
  requestOptions : Option String := none
  clientConfig : Option String := none
  retry : Option RetryOptions := none
deriving Repr, DecidableEq

/-- The state of one `WebSocketTransport` instance.  `url`, `options` are the
saved constructor arguments (`this._url`, `this._options`); `ws` is
`this._ws`, holding the generation number of the current socket (`none` is
JS `null`); `gen` is a fresh-name counter for socket generations (each
`new W3CWebSocket(...)` gets the next generation, so a restarted session is
observably a brand-new socket object); `closed` is `this._closed`;
`wasConnected` and `retriesLeft` are the closure state of the current
`_setWebSocket` invocation: its `wasConnected` flag and the remaining retry
budget of its `retry.operation`. -/
structure Transport where
  url : String
  options : Options
  ws : Option Nat
  gen : Nat
  closed : Bool
  wasConnected : Bool
  retriesLeft : Nat
deriving Repr, DecidableEq

/-- The effective retry options: `this._options.retry || DEFAULT_RETRY_OPTIONS`. -/
def Transport.retryOpts (t : Transport) : RetryOptions :=
  t.options.retry.getD DEFAULT_RETRY_OPTIONS

/-- One observable effect performed by a method or callback, in program
order.  `emitOpen`, `emitClose`, `emitDisconnected`, `emitMessage` are the
public events of the transport's event surface; `logDebug`/`logWarn`/`logError`
are calls to the logging collaborator; `opStop` is `operation.stop()`;
`scheduleRetry` is a successful `operation.retry(true)` scheduling the next
attempt; `createSocket g` is `new W3CWebSocket(...)` producing the socket of
generation `g` (with its four callbacks wired); `detachCallbacks` sets the
four `onX` callbacks to `null`; `socketClose` is `this._ws.close()`;
`socketSend d` is `this._ws.send(d)`. -/
inductive Action where
  | logDebug
  | logWarn
  | logError
  | emitOpen
  | emitClose
  | emitDisconnected
  | emitMessage (m : String)
  | opStop
  | scheduleRetry
  | createSocket (g : Nat)
  | detachCallbacks
  | socketClose
  | socketSend (data : String)
deriving Repr, DecidableEq

/-- Whether an action is an emission on the public event surface (as opposed
to a logger call or a socket-level effect). -/
def Action.isPublicEvent : Action → Bool
  | .emitOpen => true
  | .emitClose => true
  | .emitDisconnected => true
  | .emitMessage _ => true
  | _ => false

/-- The body of the `operation.attempt` callback in `_setWebSocket` (lines
93–110): if the transport is already closed, stop the operation and return;
otherwise log, construct a new `W3CWebSocket` (a fresh generation) and store
it in `this._ws`, wiring the four callbacks.  This models both the first,
synchronous attempt and any later attempt fired by the retry timer. -/
def attemptStep (t : Transport) : Transport × List Action :=
  if t.closed then
    (t, [Action.opStop])
  else
    ({ t with ws := some t.gen, gen := t.gen + 1 },
     [Action.logDebug, Action.createSocket t.gen])

/-- `_setWebSocket()` (line 87): create a fresh `retry.operation` from
`this._options.retry || DEFAULT_RETRY_OPTIONS` (so the retry budget is reset
to the configured maximum) with a fresh `wasConnected = false` closure
variable, then run the first attempt synchronously. -/
def setWebSocket (t : Transport) : Transport × List Action :=
  attemptStep { t with retriesLeft := t.retryOpts.retries, wasConnected := false }

/-- The constructor (lines 19–38): log, save `url` and `options || {}`, set
`this._ws = null` and `this._closed = false`, then call `_setWebSocket()`. -/
def mkTransport (url : String) (options : Option Options) : Transport × List Action :=
  let t : Transport :=
    { url := url
      options := options.getD {}
      ws := none
      gen := 0
      closed := false
      wasConnected := false
      retriesLeft := 0 }
  let r := setWebSocket t
  (r.1, Action.logDebug :: r.2)

/-- The `onopen` socket callback (lines 112–121): if closed, ignore;
otherwise set `wasConnected = true` and emit the public `open` event. -/
def onopen (t : Transport) : Transport × List Action :=
  if t.closed then (t, [])
  else ({ t with wasConnected := true }, [Action.emitOpen])

/-- The `onclose` socket callback (lines 123–158): if closed, ignore.
Otherwise log a warning, then:
  - if `code ≠ 4000` and `wasConnected` is false, call `operation.retry(true)`;
    with budget remaining this consumes one retry, schedules the next attempt
    and returns; with the budget exhausted it returns false and control falls
    through to the terminal branch;
  - if `code ≠ 4000` and `wasConnected` is true, stop the operation, emit the
    public `disconnected` event and call `_setWebSocket()` again (fresh
    budget, fresh socket), then return;
  - otherwise (code 4000, or budget exhausted while never connected) set
    `this._closed = true` and emit the public `close` event. -/
def onclose (t : Transport) (code : Nat) : Transport × List Action :=
  if t.closed then (t, [])
  else if code ≠ 4000 then
    if t.wasConnected = false then
      if 0 < t.retriesLeft then
        ({ t with retriesLeft := t.retriesLeft - 1 },
         [Action.logWarn, Action.scheduleRetry])
      else
        ({ t with closed := true }, [Action.logWarn, Action.emitClose])
    else
      let r := setWebSocket t
      (r.1, [Action.logWarn, Action.opStop, Action.emitDisconnected] ++ r.2)
  else
    ({ t with closed := true }, [Action.logWarn, Action.emitClose])

/-- The `onerror` socket callback (lines 160–166): if closed, ignore;
otherwise report to the logging collaborator only — no state change, no
public event. -/
def onerror (t : Transport) : Transport × List Action :=
  if t.closed then (t, []) else (t, [Action.logError])

/-- The `onmessage` socket callback (lines 168–186): if closed, ignore.
Otherwise decode the raw payload with `Message.parse` (the external codec,
modelled by `decode`); a payload decoding to nothing is silently dropped; a
decoded message with zero registered `message` listeners is logged and
dropped; otherwise the public `message` event is emitted with the decoded
value. -/
def onmessage (decode : String → Option String) (listeners : Nat)
    (t : Transport) (raw : String) : Transport × List Action :=
  if t.closed then (t, [])
  else
    match decode raw with
    | none => (t, [])
    | some m =>
      if listeners = 0 then (t, [Action.logError])
      else (t, [Action.emitMessage m])

/-- The outcome of `send(message)`: a rejected promise carrying the
"transport closed" error, a rejected promise carrying the error thrown by
the underlying socket send, or a resolved promise. -/
inductive SendResult where
  | rejectedClosed
  | rejectedError
  | resolved
deriving Repr, DecidableEq

/-- `send(message)` (lines 45–60): if closed, reject immediately with a
"transport closed" error, without touching the socket.  Otherwise call
`this._ws.send(JSON.stringify(message))` inside a try block (`serialize`
models `JSON.stringify`, `sendThrows` models whether the underlying send
throws): on a throw, log the error and reject with it; otherwise resolve. -/
def send (serialize : String → String) (t : Transport) (message : String)
    (sendThrows : Bool) : Transport × SendResult × List Action :=
  if t.closed then
    (t, SendResult.rejectedClosed, [])
  else if sendThrows then
    (t, SendResult.rejectedError, [Action.socketSend (serialize message), Action.logError])
  else
    (t, SendResult.resolved, [Action.socketSend (serialize message)])

/-- `close()` (lines 62–85): log; if already closed, return.  Otherwise set
`this._closed = true` and emit the public `close` event first, then — inside
a try block — set the four socket callbacks to `null` and call
`this._ws.close()`; an error thrown during that teardown (`teardownThrows`)
is logged and swallowed, so the call always returns normally. -/
def close (t : Transport) (teardownThrows : Bool) : Transport × List Action :=
  if t.closed then (t, [Action.logDebug])
  else
    ({ t with closed := true },
     [Action.logDebug, Action.emitClose, Action.detachCallbacks, Action.socketClose] ++
       (if teardownThrows then [Action.logError] else []))

/-- Running a sequence of `onclose` callbacks in order, concatenating the
action traces — used to state properties of whole attempt/failure sequences. -/
def runCloses (t : Transport) (codes : List Nat) : Transport × List Action :=
  match codes with
  | [] => (t, [])
  | c :: cs =>
    let r1 := onclose t c
    let r2 := runCloses r1.1 cs
    (r2.1, r1.2 ++ r2.2)

/-- The states a `WebSocketTransport` instance can be in: the state produced
by the constructor, closed under every socket callback, every public API
call and every firing of a scheduled retry attempt. -/
inductive Reachable : Transport → Prop where
  | ctor (url : String) (options : Option Options) :
      Reachable (mkTransport url options).1
  | stepOpen {t : Transport} : Reachable t → Reachable (onopen t).1
  | stepClose {t : Transport} (code : Nat) :
      Reachable t → Reachable (onclose t code).1
  | stepError {t : Transport} : Reachable t → Reachable (onerror t).1
  | stepMessage {t : Transport} (decode : String → Option String)
      (listeners : Nat) (raw : String) :
      Reachable t → Reachable (onmessage decode listeners t raw).1
  | stepSend {t : Transport} (serialize : String → String) (m : String)
      (thr : Bool) : Reachable t → Reachable (send serialize t m thr).1
  | stepCloseApi {t : Transport} (thr : Bool) :
      Reachable t → Reachable (close t thr).1
  | stepAttempt {t : Transport} : Reachable t → Reachable (attemptStep t).1

/-- A sample non-closed transport state used by witnesses. -/
def tOpen : Transport :=
  { url := "wss://example.test"
    options := {}
    ws := some 0
    gen := 1
    closed := false
    wasConnected := false
    retriesLeft := 10 }

/-- A sample closed transport state used by witnesses. -/
def tDone : Transport :=
  { tOpen with closed := true }

/-- C1: once the transport is closed, every socket callback (open, close,
error, message) returns immediately: the state is unchanged and no action —
in particular no public event — is performed. -/
theorem closed_callbacks_are_noops (t : Transport) (h : t.closed = true)
    (code : Nat) (decode : String → Option String) (listeners : Nat)
    (raw : String) :
    onopen t = (t, []) ∧ onclose t code = (t, []) ∧ onerror t = (t, []) ∧
      onmessage decode listeners t raw = (t, []) := by
  refine ⟨?_, ?_, ?_, ?_⟩ <;> simp [onopen, onclose, onerror, onmessage, h]

/-- Witness for C1 at a concrete closed transport state. -/
theorem closed_callbacks_are_noops_witness :
    tDone.closed = true ∧
      (onopen tDone = (tDone, []) ∧ onclose tDone 1006 = (tDone, []) ∧
        onerror tDone = (tDone, []) ∧
        onmessage (fun s => some s) 1 tDone "x" = (tDone, [])) :=
  ⟨rfl, closed_callbacks_are_noops tDone rfl 1006 (fun s => some s) 1 "x"⟩

/-- C2: a close callback delivered while not closed, whose code is the
reserved terminal code 4000 (regardless of `wasConnected` and remaining
budget) or which arrives with the retry budget exhausted and
`wasConnected = false`, sets `closed = true`, performs exactly a warning log
and a single public `close` event, and a scheduled attempt firing afterwards
only stops the operation without creating a socket. -/
theorem terminal_onclose (t : Transport) (code : Nat) (h : t.closed = false)
    (hterm : code = 4000 ∨ (t.wasConnected = false ∧ t.retriesLeft = 0)) :
    onclose t code =
        ({ t with closed := true }, [Action.logWarn, Action.emitClose]) ∧
      attemptStep (onclose t code).1 = ((onclose t code).1, [Action.opStop]) := by
  have h1 : onclose t code =
      ({ t with closed := true }, [Action.logWarn, Action.emitClose]) := by
    rcases hterm with hc | ⟨hw, hr⟩
    · simp [onclose, h, hc]
    · by_cases hc : code = 4000
      · simp [onclose, h, hc]
      · simp [onclose, h, hc, hw, hr]
  refine ⟨h1, ?_⟩
  rw [h1]
  simp [attemptStep]

/-- Witness for C2 at a concrete non-closed state receiving code 4000. -/
theorem terminal_onclose_witness :
    tOpen.closed = false ∧
      ((4000 : Nat) = 4000 ∨ (tOpen.wasConnected = false ∧ tOpen.retriesLeft = 0)) ∧
      (onclose tOpen 4000 =
          ({ tOpen with closed := true }, [Action.logWarn, Action.emitClose]) ∧
        attemptStep (onclose tOpen 4000).1 =
          ((onclose tOpen 4000).1, [Action.opStop])) :=
  ⟨rfl, Or.inl rfl, terminal_onclose tOpen 4000 rfl (Or.inl rfl)⟩

/-- A sample non-closed transport state whose session has reached the open
state (`wasConnected = true`), used by witnesses. -/
def tConn : Transport :=
  { tOpen with wasConnected := true, retriesLeft := 3 }

/-- C3: a close callback with a non-terminal code delivered while not closed
and with `wasConnected = true` stops the retry operation, emits exactly one
public `disconnected` event (and no `close`), and synchronously starts a
brand-new attempt: a fresh socket generation is created and the retry budget
is reset to the configured maximum; `closed` stays false. -/
theorem reconnect_onclose (t : Transport) (code : Nat) (h : t.closed = false)
    (hc : code ≠ 4000) (hw : t.wasConnected = true) :
    onclose t code =
        ({ t with
            retriesLeft := t.retryOpts.retries,
            wasConnected := false,
            ws := some t.gen,
            gen := t.gen + 1 },
          [Action.logWarn, Action.opStop, Action.emitDisconnected,
            Action.logDebug, Action.createSocket t.gen]) ∧
      (onclose t code).1.closed = false := by
  have h1 : onclose t code =
      ({ t with
          retriesLeft := t.retryOpts.retries,
          wasConnected := false,
          ws := some t.gen,
          gen := t.gen + 1 },
        [Action.logWarn, Action.opStop, Action.emitDisconnected,
          Action.logDebug, Action.createSocket t.gen]) := by
    simp [onclose, h, hc, hw, setWebSocket, attemptStep]
  exact ⟨h1, by rw [h1]; exact h⟩

/-- Witness for C3 at a concrete connected state receiving code 1006. -/
theorem reconnect_onclose_witness :
    tConn.closed = false ∧ (1006 : Nat) ≠ 4000 ∧ tConn.wasConnected = true ∧
      (onclose tConn 1006 =
          ({ tConn with
              retriesLeft := tConn.retryOpts.retries,
              wasConnected := false,
              ws := some tConn.gen,
              gen := tConn.gen + 1 },
            [Action.logWarn, Action.opStop, Action.emitDisconnected,
              Action.logDebug, Action.createSocket tConn.gen]) ∧
        (onclose tConn 1006).1.closed = false) :=
  ⟨rfl, by decide, rfl, reconnect_onclose tConn 1006 rfl (by decide) rfl⟩

/-- C4: along any sequence of close callbacks with non-terminal codes while
never connected and within the retry budget, every close schedules exactly
one further attempt, no public `close` or `disconnected` event is emitted,
`closed` and `wasConnected` stay false, and the budget decreases by one per
close. -/
theorem retry_sequence (t : Transport) (codes : List Nat)
    (h : t.closed = false) (hw : t.wasConnected = false)
    (hc : ∀ c ∈ codes, c ≠ 4000) (hb : codes.length ≤ t.retriesLeft) :
    (runCloses t codes).1.closed = false ∧
      (runCloses t codes).1.wasConnected = false ∧
      (runCloses t codes).1.retriesLeft = t.retriesLeft - codes.length ∧
      (runCloses t codes).2.count Action.scheduleRetry = codes.length ∧
      Action.emitClose ∉ (runCloses t codes).2 ∧
      Action.emitDisconnected ∉ (runCloses t codes).2 := by
  induction codes generalizing t with
  | nil => simp [runCloses, h, hw]
  | cons c cs ih =>
    have hc0 : c ≠ 4000 := hc c (by simp)
    have hpos : 0 < t.retriesLeft := by
      have := hb
      simp only [List.length_cons] at this
      omega
    have hstep : onclose t c =
        ({ t with retriesLeft := t.retriesLeft - 1 },
          [Action.logWarn, Action.scheduleRetry]) := by
      simp [onclose, h, hc0, hw, hpos]
    have hb' : cs.length ≤ t.retriesLeft - 1 := by
      have := hb
      simp only [List.length_cons] at this
      omega
    obtain ⟨h1, h2, h3, h4, h5, h6⟩ :=
      ih { t with retriesLeft := t.retriesLeft - 1 } h hw
        (fun x hx => hc x (by simp [hx])) hb'
    simp only [runCloses, hstep]
    refine ⟨h1, h2, ?_, ?_, ?_, ?_⟩
    · rw [h3]
      simp only [List.length_cons]
      omega
    · simp [List.count_append, h4, Nat.add_comm]
    · simp only [List.mem_append, List.mem_cons, List.not_mem_nil]
      push_neg
      exact ⟨⟨by decide, by decide, fun hfalse => hfalse.elim⟩, h5⟩
    · simp only [List.mem_append, List.mem_cons, List.not_mem_nil]
      push_neg
      exact ⟨⟨by decide, by decide, fun hfalse => hfalse.elim⟩, h6⟩

/-- Witness for C4 at a concrete state and a concrete two-element sequence of
code-1006 closes. -/
theorem retry_sequence_witness :
    tOpen.closed = false ∧ tOpen.wasConnected = false ∧
      (∀ c ∈ [1006, 1001], c ≠ 4000) ∧
      [1006, 1001].length ≤ tOpen.retriesLeft ∧
      ((runCloses tOpen [1006, 1001]).1.closed = false ∧
        (runCloses tOpen [1006, 1001]).1.wasConnected = false ∧
        (runCloses tOpen [1006, 1001]).1.retriesLeft =
          tOpen.retriesLeft - [1006, 1001].length ∧
        (runCloses tOpen [1006, 1001]).2.count Action.scheduleRetry =
          [1006, 1001].length ∧
        Action.emitClose ∉ (runCloses tOpen [1006, 1001]).2 ∧
        Action.emitDisconnected ∉ (runCloses tOpen [1006, 1001]).2) :=
  ⟨rfl, rfl, by decide, by decide,
    retry_sequence tOpen [1006, 1001] rfl rfl (by decide) (by decide)⟩

/-- C5: `send` succeeds exactly when the transport is not closed and the
underlying socket send does not throw.  When closed it rejects with the
"transport closed" error and performs no action at all (the socket is not
touched); when the underlying send throws, the socket send is attempted and
the error is logged and returned as a rejection; otherwise the serialized
message is handed to the socket and the promise resolves. -/
theorem send_spec (serialize : String → String) (t : Transport) (m : String)
    (thr : Bool) :
    ((send serialize t m thr).2.1 = SendResult.resolved ↔
        (t.closed = false ∧ thr = false)) ∧
      (t.closed = true →
        send serialize t m thr = (t, SendResult.rejectedClosed, [])) ∧
      (t.closed = false → thr = true →
        send serialize t m thr =
          (t, SendResult.rejectedError,
            [Action.socketSend (serialize m), Action.logError])) ∧
      (t.closed = false → thr = false →
        send serialize t m thr =
          (t, SendResult.resolved, [Action.socketSend (serialize m)])) := by
  cases hcl : t.closed <;> cases thr <;> simp [send, hcl]

/-- Witness for C5 at a concrete open transport and non-throwing socket. -/
theorem send_spec_witness :
    ((send (fun s => s) tOpen "hello" false).2.1 = SendResult.resolved ↔
        (tOpen.closed = false ∧ (false : Bool) = false)) ∧
      (tOpen.closed = true →
        send (fun s => s) tOpen "hello" false =
          (tOpen, SendResult.rejectedClosed, [])) ∧
      (tOpen.closed = false → (false : Bool) = true →
        send (fun s => s) tOpen "hello" false =
          (tOpen, SendResult.rejectedError,
            [Action.socketSend "hello", Action.logError])) ∧
      (tOpen.closed = false → (false : Bool) = false →
        send (fun s => s) tOpen "hello" false =
          (tOpen, SendResult.resolved, [Action.socketSend "hello"])) :=
  send_spec (fun s => s) tOpen "hello" false

/-- C6: `close()` on a non-closed transport sets `closed = true` and its
action trace emits the public `close` event (right after the entry log)
strictly before the teardown actions that detach the four callbacks and
request the socket close; a teardown error only appends a log entry, and the
call always returns normally. -/
theorem close_spec (t : Transport) (thr : Bool) (h : t.closed = false) :
    close t thr =
        ({ t with closed := true },
          [Action.logDebug, Action.emitClose, Action.detachCallbacks,
            Action.socketClose] ++ (if thr then [Action.logError] else [])) ∧
      (close t thr).1.closed = true := by
  simp [close, h]

/-- Witness for C6 at a concrete open transport whose teardown throws. -/
theorem close_spec_witness :
    tOpen.closed = false ∧
      (close tOpen true =
          ({ tOpen with closed := true },
            [Action.logDebug, Action.emitClose, Action.detachCallbacks,
              Action.socketClose] ++
              (if true then [Action.logError] else [])) ∧
        (close tOpen true).1.closed = true) :=
  ⟨rfl, close_spec tOpen true rfl⟩

/-- C7: `close()` is idempotent — after any first call to `close()`, any
further call leaves the state exactly as it was, performs only the entry
log, and in particular emits no second `close` event and throws nothing. -/
theorem close_idempotent (t : Transport) (thr thr2 : Bool) :
    close (close t thr).1 thr2 = ((close t thr).1, [Action.logDebug]) := by
  cases hcl : t.closed <;> simp [close, hcl]

/-- C8: while the transport is not closed, the public `message` event fires
with value `m` exactly when the codec decodes the raw payload to `m` and at
least one `message` listener is registered; a payload that fails decoding is
dropped with no action at all, and a decoded message with zero listeners is
only logged; `onmessage` never changes the transport state. -/
theorem onmessage_spec (decode : String → Option String) (listeners : Nat)
    (t : Transport) (raw : String) (h : t.closed = false) :
    (∀ m, Action.emitMessage m ∈ (onmessage decode listeners t raw).2 ↔
        (decode raw = some m ∧ 0 < listeners)) ∧
      (decode raw = none → onmessage decode listeners t raw = (t, [])) ∧
      (∀ m, decode raw = some m → listeners = 0 →
        onmessage decode listeners t raw = (t, [Action.logError])) ∧
      (onmessage decode listeners t raw).1 = t := by
  rcases hd : decode raw with _ | m
  · cases listeners <;> simp [onmessage, h, hd]
  · cases listeners
    · simp [onmessage, h, hd]
    · simp only [onmessage, h, hd]
      refine ⟨fun m2 => ?_, by simp, by simp, by simp [h]⟩
      simp [eq_comm]

/-- Witness for C8 at a concrete open transport, an identity-like codec and
one registered listener. -/
theorem onmessage_spec_witness :
    tOpen.closed = false ∧
      ((∀ m, Action.emitMessage m ∈
            (onmessage (fun s => some s) 1 tOpen "hi").2 ↔
          ((fun s => some s) "hi" = some m ∧ 0 < 1)) ∧
        ((fun s => some s) "hi" = none →
          onmessage (fun s => some s) 1 tOpen "hi" = (tOpen, [])) ∧
        (∀ m, (fun s => some s) "hi" = some m → 1 = 0 →
          onmessage (fun s => some s) 1 tOpen "hi" = (tOpen, [Action.logError])) ∧
        (onmessage (fun s => some s) 1 tOpen "hi").1 = tOpen) :=
  ⟨rfl, onmessage_spec (fun s => some s) 1 tOpen "hi" rfl⟩

/-- C9: `send` never mutates the transport — the `closed` flag, the socket
reference, the URL and the options are the same before and after the call,
in every branch (closed rejection, socket-send throw, success). -/
theorem send_frame (serialize : String → String) (t : Transport) (m : String)
    (thr : Bool) :
    (send serialize t m thr).1.closed = t.closed ∧
      (send serialize t m thr).1.ws = t.ws ∧
      (send serialize t m thr).1.url = t.url ∧
      (send serialize t m thr).1.options = t.options ∧
      (send serialize t m thr).1 = t := by
  cases hcl : t.closed <;> cases thr <;> simp [send, hcl]

/-- C10: every reachable transport state — the constructor's result and
anything obtained from it by socket callbacks, public API calls or retry
attempts firing — carries a non-null socket reference, so the unguarded
`this._ws` dereferences in `send()` and `close()` always find a socket. -/
theorem reachable_ws_isSome (t : Transport) (h : Reachable t) :
    t.ws.isSome = true := by
  induction h with
  | ctor url options => simp [mkTransport, setWebSocket, attemptStep]
  | stepOpen hr ih =>
    unfold onopen
    split
    · exact ih
    · exact ih
  | stepClose code hr ih =>
    unfold onclose
    split
    · exact ih
    · split
      · split
        · split
          · exact ih
          · exact ih
        · unfold setWebSocket attemptStep
          split
          · exact ih
          · simp
      · exact ih
  | stepError hr ih =>
    unfold onerror
    split
    · exact ih
    · exact ih
  | stepMessage decode listeners raw hr ih =>
    unfold onmessage
    split
    · exact ih
    · split
      · exact ih
      · split
        · exact ih
        · exact ih
  | stepSend serialize m thr hr ih =>
    unfold send
    split
    · exact ih
    · split
      · exact ih
      · exact ih
  | stepCloseApi thr hr ih =>
    unfold close
    split
    · exact ih
    · exact ih
  | stepAttempt hr ih =>
    unfold attemptStep
    split
    · exact ih
    · simp
/-- Witness for C10: the state right after construction has a socket. -/
theorem reachable_ws_isSome_witness :
    ((mkTransport "wss://example.test" none).1).ws.isSome = true :=
  reachable_ws_isSome _ (Reachable.ctor "wss://example.test" none)

end Protoo
